import Mathlib

/-!
Shallow embedding of the asynchronous job orchestration subsystem of the
elloms-flask-api repository: the SQLAlchemy data model (src/database/models.py),
the CRUD layer (src/database/crud.py), the crew wrapper
(src/crews/crew_manager.py) and the FastAPI route handlers plus the background
task (src/main.py).  Timestamps are modelled as abstract Nat ticks, database
row ids and UUIDs are passed in as parameters, and the two genuinely external
effects — the opaque crew execution and the possibility that the message insert
raises — are modelled as explicit outcome parameters.
-/

/-- A row of the `conversations` table (models.py lines 36-50). -/
structure ConversationRec where
  id : Nat
  user_id : Nat
  title : String
  updated_at : Option Nat
  deriving Repr, DecidableEq

/-- A row of the `messages` table (models.py lines 53-66). -/
structure MessageRec where
  id : Nat
  conversation_id : Nat
  role : String
  content : String
  created_at : Nat
  deriving Repr, DecidableEq

/-- A row of the `crew_jobs` table (models.py lines 69-89).  The `user_id`
column is declared non-nullable, `conversation_id` is nullable, and the
`status` column ranges over "pending", "running", "completed", "failed". -/
structure CrewJobRec where
  id : Nat
  job_id : String
  user_id : Nat
  conversation_id : Option Nat
  topic : String
  platform : Option String
  additional_context : Option String
  status : String
  result : Option String
  error_message : Option String
  started_at : Nat
  completed_at : Option Nat
  deriving Repr, DecidableEq

/-- The relational store, restricted to the tables the orchestration core
touches. -/
structure Db where
  conversations : List ConversationRec
  messages : List MessageRec
  crew_jobs : List CrewJobRec
  deriving Repr, DecidableEq

/-- Pydantic payload `MessageCreate` (schemas/conversation.py lines 10-11). -/
structure MessageCreate where
  conversation_id : Nat
  role : String
  content : String
  deriving Repr, DecidableEq

/-- Pydantic payload `CrewJobCreate` (schemas/crew.py lines 6-13). -/
structure CrewJobCreate where
  topic : String
  additional_context : Option String
  platform : Option String
  conversation_id : Option Nat
  deriving Repr, DecidableEq

/-- Pydantic payload `CrewJobUpdate` (schemas/crew.py lines 20-27).  Every
field is optional; `update_crew_job` applies `model_dump(exclude_unset=True)`,
so `none` here means the field was not supplied and is left untouched.  The
`image_status`, `images` and `updated_at` fields of the pydantic model map to
no column of the `crew_jobs` table and are never set by the orchestration
paths, so they are omitted. -/
structure CrewJobUpdate where
  status : Option String := none
  result : Option String := none
  error_message : Option String := none
  completed_at : Option Nat := none
  deriving Repr, DecidableEq

/-- `crud.get_conversation` (crud.py lines 73-79): fetch the conversation by id,
scoped to the owning user. -/
def get_conversation (db : Db) (conversation_id : Nat) (user_id : Nat) :
    Option ConversationRec :=
  db.conversations.find?
    (fun c => c.id == conversation_id && c.user_id == user_id)

/-- `crud.get_conversation_messages` (crud.py lines 98-109): first verify the
user owns the conversation; if the conversation is missing or owned by someone
else return the empty list, otherwise return the messages of the conversation
ordered by `created_at` ascending.  A pure read: it performs no writes and
raises nothing. -/
def get_conversation_messages (db : Db) (conversation_id : Nat)
    (user_id : Nat) : List MessageRec :=
  match get_conversation db conversation_id user_id with
  | none => []
  | some _ =>
      (db.messages.filter (fun m => m.conversation_id == conversation_id)).mergeSort
        (fun a b => decide (a.created_at ≤ b.created_at))

/-- `crud.create_message` (crud.py lines 82-96): insert the message row and
stamp the owning conversation with a fresh `updated_at`. -/
def create_message (db : Db) (message : MessageCreate) (newId : Nat)
    (now : Nat) : Db × MessageRec :=
  let db_message : MessageRec :=
    { id := newId, conversation_id := message.conversation_id,
      role := message.role, content := message.content, created_at := now }
  ({ db with
      messages := db.messages ++ [db_message],
      conversations := db.conversations.map
        (fun c => if c.id == message.conversation_id
          then { c with updated_at := some now } else c) },
   db_message)

/-- `crud.create_conversation` (crud.py lines 52-60): insert a conversation row
for the user.  `title` stands for the payload title or the generated default. -/
def create_conversation (db : Db) (user_id : Nat) (title : String)
    (newId : Nat) : Db × ConversationRec :=
  let db_conversation : ConversationRec :=
    { id := newId, user_id := user_id, title := title, updated_at := none }
  ({ db with conversations := db.conversations ++ [db_conversation] },
   db_conversation)

/-- `crud.create_crew_job` (crud.py lines 112-125): insert a job row with
status "pending".  Note that the source copies `conversation_id`, `topic` and
`additional_context` from the payload but not `platform`, which is left NULL. -/
def create_crew_job (db : Db) (user_id : Nat) (job_data : CrewJobCreate)
    (job_id : String) (newId : Nat) (now : Nat) : Db × CrewJobRec :=
  let db_job : CrewJobRec :=
    { id := newId, job_id := job_id, user_id := user_id,
      conversation_id := job_data.conversation_id, topic := job_data.topic,
      platform := none, additional_context := job_data.additional_context,
      status := "pending", result := none, error_message := none,
      started_at := now, completed_at := none }
  ({ db with crew_jobs := db.crew_jobs ++ [db_job] }, db_job)

/-- One `setattr` step of `update_crew_job` for the `status` field. -/
def setStatus (j : CrewJobRec) : Option String → CrewJobRec
  | some s => { j with status := s }
  | none => j

/-- One `setattr` step of `update_crew_job` for the `result` field. -/
def setResult (j : CrewJobRec) : Option String → CrewJobRec
  | some r => { j with result := some r }
  | none => j

/-- One `setattr` step of `update_crew_job` for the `error_message` field. -/
def setErrorMessage (j : CrewJobRec) : Option String → CrewJobRec
  | some e => { j with error_message := some e }
  | none => j

/-- One `setattr` step of `update_crew_job` for the `completed_at` field. -/
def setCompletedAt (j : CrewJobRec) : Option Nat → CrewJobRec
  | some t => { j with completed_at := some t }
  | none => j

/-- The loop body of `crud.update_crew_job` (crud.py lines 131-134): every
field present in `model_dump(exclude_unset=True)` is written onto the row with
`setattr`, unconditionally. -/
def applyUpdate (j : CrewJobRec) (u : CrewJobUpdate) : CrewJobRec :=
  setCompletedAt
    (setErrorMessage (setResult (setStatus j u.status) u.result)
      u.error_message)
    u.completed_at

/-- Replace, in place, the first row whose `job_id` matches (the row that
`scalar_one_or_none` returned and that the source mutates). -/
def replaceFirstJob : List CrewJobRec → String → CrewJobUpdate → List CrewJobRec
  | [], _, _ => []
  | j :: rest, jid, u =>
      if j.job_id == jid then applyUpdate j u :: rest
      else j :: replaceFirstJob rest jid u

/-- `crud.update_crew_job` (crud.py lines 127-139): look the row up by
`job_id`, apply every supplied field with `setattr`, commit, and return the
refreshed row; if no row matches, return `none` and change nothing.  There is
no check of the current status before the update is applied. -/
def update_crew_job (db : Db) (job_id : String) (job_update : CrewJobUpdate) :
    Db × Option CrewJobRec :=
  match db.crew_jobs.find? (fun j => j.job_id == job_id) with
  | none => (db, none)
  | some db_job =>
      ({ db with crew_jobs := replaceFirstJob db.crew_jobs job_id job_update },
       some (applyUpdate db_job job_update))

/-- `crud.get_crew_job` (crud.py lines 141-146): fetch by `job_id` scoped to
`user_id`.  The owner argument is nullable in the background path
(main.py line 214); SQLAlchemy renders the filter `CrewJob.user_id == None`
as `user_id IS NULL`, and since the `user_id` column is non-nullable
(models.py line 74) a `none` owner matches no stored row. -/
def get_crew_job (db : Db) (job_id : String) (user_id : Option Nat) :
    Option CrewJobRec :=
  db.crew_jobs.find?
    (fun j => j.job_id == job_id &&
      match user_id with
      | some u => j.user_id == u
      | none => false)

/-- A conversation message reduced to role and content, the shape handed to
the crew as context (main.py lines 219-222). -/
structure RoleContent where
  role : String
  content : String
  deriving Repr, DecidableEq

/-- The outcome of the opaque `crew.kickoff(inputs=inputs)` call inside
`kickoff_crew_with_context` (crew_manager.py line 153): either the text it
returns, or the message of the exception it raises. -/
inductive CrewOutcome where
  | success (text : String)
  | error (msg : String)
  deriving Repr, DecidableEq

/-- The dict returned by `crew_manager.kickoff_crew_with_context`. -/
structure KickoffResult where
  status : String
  result : Option String
  message : String
  deriving Repr, DecidableEq

/-- The context prompt reduction performed by `create_crew_with_context`
(crew_manager.py lines 18-25): of the supplied conversation context, the last
5 messages are kept, and each contributes one prompt line made of its role and
its content truncated to 200 characters.  `pyTail n xs` below is the Python
slice `xs[-n:]`. -/
def pyTail {α : Type} (n : Nat) (xs : List α) : List α :=
  xs.drop (xs.length - n)

/-- The role/content pairs that actually end up in the crew task prompt:
`conversation_context[-5:]`, each with the content budgeted to 200 characters
(crew_manager.py lines 21-22). -/
def contextWindow (conversation_context : List RoleContent) :
    List RoleContent :=
  (pyTail 5 conversation_context).map
    (fun msg => { role := msg.role, content := msg.content.take 200 })

/-- `crew_manager.kickoff_crew_with_context` (crew_manager.py lines 143-165):
builds the crew from the inputs and the conversation context and runs it
inside a try/except that catches every exception.  A normal return is wrapped
in a success payload with the stringified crew output; an exception is caught
and turned into an error payload — it is never re-raised.  The inputs and the
context shape the prompt but not the control flow, so the state-relevant
behaviour is a function of the opaque outcome alone. -/
def kickoff_crew_with_context (_inputs : CrewJobCreate)
    (_conversation_context : List RoleContent) (outcome : CrewOutcome) :
    KickoffResult :=
  match outcome with
  | .success t =>
      { status := "success", result := some t,
        message := "Crew execution completed successfully" }
  | .error m =>
      { status := "error", result := none,
        message := "Error during crew execution: " ++ m }

/-- Python `str(...)` of the dict returned by `kickoff_crew_with_context`,
which is what main.py stores into the `result` column (line 233) and into the
assistant message content (line 243). -/
def pyStrOfKickoff (r : KickoffResult) : String :=
  "\x7b\x27status\x27: \x27" ++ r.status ++ "\x27, \x27result\x27: " ++
    (match r.result with
     | some s => "\x27" ++ s ++ "\x27"
     | none => "None") ++
    ", \x27message\x27: \x27" ++ r.message ++ "\x27\x7d"

/-- An HTTP error response raised by a route handler. -/
structure HTTPError where
  status_code : Nat
  detail : String
  deriving Repr, DecidableEq

/-- Whether the message insert performed for the assistant response commits
normally or raises (a database fault); the only statement of the background
task try-body that can still raise after the job has been recorded. -/
inductive AppendOutcome where
  | ok
  | raise (msg : String)
  deriving Repr, DecidableEq

/-- First persisted step of `run_crew_background_with_db` (main.py lines
207-211): set the job status to "running".  No guard checks the prior
status. -/
def backgroundSetRunning (db : Db) (job_id : String) : Db :=
  (update_crew_job db job_id { status := some "running" }).1

/-- The job refetch of the background task (main.py line 214): the job is
looked up with `None` as the owner ("without user check"). -/
def backgroundJob (db : Db) (job_id : String) : Option CrewJobRec :=
  get_crew_job db job_id none

/-- The per-job context assembly of main.py lines 217-222, for a job with
conversation `cid` owned by `uid`: fetch the conversation messages
(chronological, owner-checked) and keep the last 10, each reduced to role and
content. -/
def jobConversationContext (db : Db) (cid : Nat) (uid : Nat) :
    List RoleContent :=
  (pyTail 10 (get_conversation_messages db cid uid)).map
    (fun m => { role := m.role, content := m.content })

/-- The conversation context computed by the background task (main.py lines
213-222): empty unless the refetched job exists and carries a conversation. -/
def backgroundContext (db : Db) (job_id : String) : List RoleContent :=
  match backgroundJob db job_id with
  | some job =>
      match job.conversation_id with
      | some cid => jobConversationContext db cid job.user_id
      | none => []
  | none => []

/-- Remainder of the background task after the "running" update (main.py lines
213-258): refetch the job with a `None` owner, assemble the context, invoke
the crew wrapper, record the outcome as "completed" with the stringified
payload, and, when the refetched job carries a conversation, append the
assistant message.  An exception raised inside the try-body — here only the
message insert, `AppendOutcome.raise` — falls into the except branch, which
overwrites the job as "failed" with the exception text and a fresh
`completed_at`. -/
def backgroundRest (db : Db) (job_id : String) (inputs : CrewJobCreate)
    (outcome : CrewOutcome) (append : AppendOutcome) (newMsgId : Nat)
    (now : Nat) (now2 : Nat) : Db :=
  let job := backgroundJob db job_id
  let conversation_context := backgroundContext db job_id
  let result := kickoff_crew_with_context inputs conversation_context outcome
  let db2 := (update_crew_job db job_id
    { status := some "completed", result := some (pyStrOfKickoff result),
      completed_at := some now }).1
  match job with
  | some j =>
      match j.conversation_id with
      | some cid =>
          match append with
          | .ok =>
              (create_message db2
                { conversation_id := cid, role := "assistant",
                  content := pyStrOfKickoff result } newMsgId now2).1
          | .raise m =>
              (update_crew_job db2 job_id
                { status := some "failed", error_message := some m,
                  completed_at := some now2 }).1
      | none => db2
  | none => db2

/-- `main.run_crew_background_with_db` (main.py lines 199-258), as the
composition of the "running" update with the remainder of the task body. -/
def run_crew_background_with_db (db : Db) (job_id : String)
    (inputs : CrewJobCreate) (outcome : CrewOutcome) (append : AppendOutcome)
    (newMsgId : Nat) (now : Nat) (now2 : Nat) : Db :=
  backgroundRest (backgroundSetRunning db job_id) job_id inputs outcome append
    newMsgId now now2

/-- The pydantic constraints of `CrewJobBase` (schemas/crew.py lines 6-9):
`topic` must have at least 3 and at most 500 characters.  FastAPI validates
the request body against this model before the route handler runs. -/
def crewJobCreateValid (job_data : CrewJobCreate) : Bool :=
  decide (3 ≤ job_data.topic.length) && decide (job_data.topic.length ≤ 500)

/-- The route handler `POST /crew/kickoff-async` (main.py lines 145-176)
together with the request validation FastAPI performs in front of it: on an
invalid topic the handler never runs, nothing is written, and a synchronous
validation error is returned; otherwise the job row is created with status
"pending", the user message is appended when a conversation id was supplied,
the background task is scheduled, and the fresh job id is acknowledged. -/
def kickoff_crew_async (db : Db) (userId : Nat) (job_data : CrewJobCreate)
    (freshJobId : String) (newRowId : Nat) (newMsgId : Nat) (now : Nat) :
    Db × Except HTTPError String :=
  if crewJobCreateValid job_data then
    let created := create_crew_job db userId job_data freshJobId newRowId now
    let db2 :=
      match job_data.conversation_id with
      | some cid =>
          (create_message created.1
            { conversation_id := cid, role := "user",
              content := "Research and write about: " ++ job_data.topic }
            newMsgId now).1
      | none => created.1
    (db2, .ok created.2.job_id)
  else
    (db, .error { status_code := 422, detail := "validation error" })

/-- The route handler `GET /crew/jobs/job_id` (main.py lines 178-187): an
owner-scoped fetch; a job that does not exist, or exists under a different
owner, yields the same 404 "Job not found" error.  No 403 path exists. -/
def get_crew_job_endpoint (db : Db) (job_id : String) (userId : Nat) :
    Except HTTPError CrewJobRec :=
  match get_crew_job db job_id (some userId) with
  | some job => .ok job
  | none => .error { status_code := 404, detail := "Job not found" }

/-- The route handler `POST /conversations/conversation_id/messages`
(main.py lines 129-142): verify the conversation exists and belongs to the
user, then insert the message. -/
def add_message_endpoint (db : Db) (userId : Nat) (conversationId : Nat)
    (role : String) (content : String) (newId : Nat) (now : Nat) :
    Db × Except HTTPError MessageRec :=
  match get_conversation db conversationId userId with
  | none => (db, .error { status_code := 404, detail := "Conversation not found" })
  | some _ =>
      let r := create_message db
        { conversation_id := conversationId, role := role, content := content }
        newId now
      (r.1, .ok r.2)

theorem applyUpdate_job_id (j : CrewJobRec) (u : CrewJobUpdate) :
    (applyUpdate j u).job_id = j.job_id := by
  rcases u with ⟨s, r, e, c⟩
  cases s <;> cases r <;> cases e <;> cases c <;> rfl

theorem get_crew_job_none_owner (db : Db) (jid : String) :
    get_crew_job db jid none = none := by
  unfold get_crew_job
  simp

theorem backgroundJob_none (db : Db) (jid : String) :
    backgroundJob db jid = none :=
  get_crew_job_none_owner db jid

theorem backgroundContext_empty (db : Db) (jid : String) :
    backgroundContext db jid = [] := by
  unfold backgroundContext
  rw [backgroundJob_none]

theorem backgroundRest_eq_completed (db : Db) (jid : String)
    (inputs : CrewJobCreate) (o : CrewOutcome) (ap : AppendOutcome)
    (mid now now2 : Nat) :
    backgroundRest db jid inputs o ap mid now now2 =
      (update_crew_job db jid
        { status := some "completed",
          result := some (pyStrOfKickoff
            (kickoff_crew_with_context inputs (backgroundContext db jid) o)),
          completed_at := some now }).1 := by
  simp only [backgroundRest, backgroundJob_none]

theorem run_background_eq (db : Db) (jid : String) (inputs : CrewJobCreate)
    (o : CrewOutcome) (ap : AppendOutcome) (mid now now2 : Nat) :
    run_crew_background_with_db db jid inputs o ap mid now now2 =
      (update_crew_job (backgroundSetRunning db jid) jid
        { status := some "completed",
          result := some (pyStrOfKickoff (kickoff_crew_with_context inputs
            (backgroundContext (backgroundSetRunning db jid) jid) o)),
          completed_at := some now }).1 := by
  unfold run_crew_background_with_db
  exact backgroundRest_eq_completed ..

theorem replaceFirstJob_of_find?_none (jobs : List CrewJobRec) (jid : String)
    (u : CrewJobUpdate)
    (h : jobs.find? (fun j => j.job_id == jid) = none) :
    replaceFirstJob jobs jid u = jobs := by
  induction jobs with
  | nil => rfl
  | cons j rest ih =>
      rw [List.find?_cons] at h
      by_cases hj : (j.job_id == jid) = true
      · rw [hj] at h; exact absurd h (by simp)
      · rw [Bool.eq_false_iff.mpr hj] at h
        simp only [replaceFirstJob, Bool.eq_false_iff.mpr hj, if_neg, ih h]
        simp [hj]

theorem update_crew_job_fst_crew_jobs (db : Db) (jid : String)
    (u : CrewJobUpdate) :
    (update_crew_job db jid u).1.crew_jobs =
      replaceFirstJob db.crew_jobs jid u := by
  unfold update_crew_job
  cases h : db.crew_jobs.find? (fun j => j.job_id == jid) with
  | none => simp [replaceFirstJob_of_find?_none db.crew_jobs jid u h]
  | some j => rfl

theorem update_crew_job_messages (db : Db) (jid : String) (u : CrewJobUpdate) :
    (update_crew_job db jid u).1.messages = db.messages := by
  unfold update_crew_job
  cases h : db.crew_jobs.find? (fun j => j.job_id == jid) <;> rfl

theorem update_crew_job_conversations (db : Db) (jid : String)
    (u : CrewJobUpdate) :
    (update_crew_job db jid u).1.conversations = db.conversations := by
  unfold update_crew_job
  cases h : db.crew_jobs.find? (fun j => j.job_id == jid) <;> rfl

theorem backgroundSetRunning_crew_jobs (db : Db) (jid : String) :
    (backgroundSetRunning db jid).crew_jobs =
      replaceFirstJob db.crew_jobs jid { status := some "running" } :=
  update_crew_job_fst_crew_jobs ..

theorem backgroundSetRunning_messages (db : Db) (jid : String) :
    (backgroundSetRunning db jid).messages = db.messages :=
  update_crew_job_messages ..

theorem create_message_crew_jobs (db : Db) (m : MessageCreate)
    (newId now : Nat) :
    ((create_message db m newId now).1).crew_jobs = db.crew_jobs := rfl

theorem create_conversation_crew_jobs (db : Db) (uid : Nat) (title : String)
    (newId : Nat) :
    ((create_conversation db uid title newId).1).crew_jobs = db.crew_jobs := rfl

theorem find?_replaceFirstJob (jobs : List CrewJobRec) (jid : String)
    (u : CrewJobUpdate) :
    (replaceFirstJob jobs jid u).find? (fun k => k.job_id == jid) =
      (jobs.find? (fun k => k.job_id == jid)).map
        (fun k => applyUpdate k u) := by
  induction jobs with
  | nil => rfl
  | cons j rest ih =>
      by_cases hj : (j.job_id == jid) = true
      · have hj' : ((applyUpdate j u).job_id == jid) = true := by
          rw [applyUpdate_job_id]; exact hj
        simp [replaceFirstJob, hj, hj', List.find?_cons]
      · simp [replaceFirstJob, hj, List.find?_cons, ih]

theorem replaceFirstJob_map_job_id (jobs : List CrewJobRec) (jid : String)
    (u : CrewJobUpdate) :
    (replaceFirstJob jobs jid u).map (fun j => j.job_id) =
      jobs.map (fun j => j.job_id) := by
  induction jobs with
  | nil => rfl
  | cons j rest ih =>
      by_cases hj : (j.job_id == jid) = true
      · simp [replaceFirstJob, hj, applyUpdate_job_id]
      · simp [replaceFirstJob, hj, ih]

theorem replaceFirstJob_eq_map_of_nodup (jobs : List CrewJobRec)
    (jid : String) (u : CrewJobUpdate)
    (h : (jobs.map (fun j => j.job_id)).Nodup) :
    replaceFirstJob jobs jid u =
      jobs.map (fun j => if j.job_id = jid then applyUpdate j u else j) := by
  induction jobs with
  | nil => rfl
  | cons j rest ih =>
      simp only [List.map_cons, List.nodup_cons] at h
      obtain ⟨hnotin, hrest⟩ := h
      by_cases hj : j.job_id = jid
      · have hb : (j.job_id == jid) = true := beq_iff_eq.mpr hj
        simp only [replaceFirstJob, hb, if_pos, List.map_cons, if_pos hj]
        have : ∀ k ∈ rest, (if k.job_id = jid then applyUpdate k u else k) = k := by
          intro k hk
          have : k.job_id ≠ jid := by
            intro hkj
            exact hnotin (hj ▸ hkj ▸ List.mem_map_of_mem (fun x => x.job_id) hk)
          simp [this]
        rw [List.map_congr_left this]
        simp
      · have hb : (j.job_id == jid) = false := by simp [hj]
        simp only [replaceFirstJob, hb, List.map_cons, if_neg hj,
          Bool.false_eq_true, if_neg, not_false_eq_true]
        rw [ih hrest]

theorem run_background_final_job (db : Db) (jid : String)
    (inputs : CrewJobCreate) (o : CrewOutcome) (ap : AppendOutcome)
    (mid now now2 : Nat) (j : CrewJobRec)
    (hfind : db.crew_jobs.find? (fun k => k.job_id == jid) = some j) :
    (run_crew_background_with_db db jid inputs o ap mid now now2).crew_jobs.find?
        (fun k => k.job_id == jid) =
      some (applyUpdate (applyUpdate j { status := some "running" })
        { status := some "completed",
          result := some (pyStrOfKickoff (kickoff_crew_with_context inputs
            (backgroundContext (backgroundSetRunning db jid) jid) o)),
          completed_at := some now }) := by
  rw [run_background_eq, update_crew_job_fst_crew_jobs, find?_replaceFirstJob,
    backgroundSetRunning_crew_jobs, find?_replaceFirstJob, hfind]
  rfl

/-- A store holding a single job that already reached the terminal status
"completed" (for the C1 counterexample and the C1 witness). -/
def c1Job : CrewJobRec :=
  { id := 1, job_id := "job-c1", user_id := 1, conversation_id := none,
    topic := "AI in healthcare", platform := none, additional_context := none,
    status := "completed", result := some "done", error_message := none,
    started_at := 0, completed_at := some 9 }

def c1Db : Db := { conversations := [], messages := [], crew_jobs := [c1Job] }

/-- C1: counterexample.  The claim says any transition attempt out of a
terminal state is rejected with an error and leaves the stored record
unchanged.  Here a job whose status is "completed" receives the update
status := "running": `update_crew_job` returns the updated row (no error), the
stored record changes, and the store now holds the job with status "running" —
a backward transition out of a terminal state that was accepted, not
rejected. -/
theorem C1_counterexample :
    c1Job.status = "completed" ∧
    (update_crew_job c1Db "job-c1" { status := some "running" }).2 ≠ none ∧
    (update_crew_job c1Db "job-c1" { status := some "running" }).1 ≠ c1Db ∧
    ∃ j ∈ (update_crew_job c1Db "job-c1"
        { status := some "running" }).1.crew_jobs,
      j.status = "running" := by
  decide

/-- C1 (amended): `update_crew_job` performs no state-machine validation at
all: whenever a row with the requested job id exists — whatever its current
status, the terminal ones included — every supplied field is written onto the
stored record and the updated record is returned; no transition is ever
rejected. -/
theorem C1_amended_updates_unconditionally (db : Db) (jid : String)
    (u : CrewJobUpdate) (j : CrewJobRec)
    (hfind : db.crew_jobs.find? (fun k => k.job_id == jid) = some j) :
    (update_crew_job db jid u).2 = some (applyUpdate j u) ∧
    applyUpdate j u ∈ (update_crew_job db jid u).1.crew_jobs := by
  constructor
  · unfold update_crew_job
    rw [hfind]
  · have h1 : (update_crew_job db jid u).1.crew_jobs.find?
        (fun k => k.job_id == jid) = some (applyUpdate j u) := by
      rw [update_crew_job_fst_crew_jobs, find?_replaceFirstJob, hfind]
      rfl
    exact List.mem_of_find?_eq_some h1

theorem C1_amended_witness :
    (update_crew_job c1Db "job-c1" { status := some "failed" }).2 =
      some (applyUpdate c1Job { status := some "failed" }) ∧
    applyUpdate c1Job { status := some "failed" } ∈
      (update_crew_job c1Db "job-c1" { status := some "failed" }).1.crew_jobs :=
  C1_amended_updates_unconditionally c1Db "job-c1"
    { status := some "failed" } c1Job (by decide)

/-- A store holding a single freshly created pending job (for the C2
evaluation). -/
def c2Job : CrewJobRec :=
  { id := 1, job_id := "job-c2", user_id := 7, conversation_id := none,
    topic := "AI in healthcare", platform := none, additional_context := none,
    status := "pending", result := none, error_message := none,
    started_at := 0, completed_at := none }

def c2Db : Db := { conversations := [], messages := [], crew_jobs := [c2Job] }

def c2Inputs : CrewJobCreate :=
  { topic := "AI in healthcare", additional_context := none, platform := none,
    conversation_id := none }

/-- C2 (evaluation of the code at the failing input): the crew execution
raises Exception("boom").  `kickoff_crew_with_context` catches it and returns
an error payload, and `run_crew_background_with_db` then records the job as
"completed", with the stringified error payload stored in `result` and
`error_message` left NULL — not as "failed" with the message in
`error_message`, which is what the claim requires. -/
theorem C2_capability_failure_recorded_completed :
    ∃ j ∈ (run_crew_background_with_db c2Db "job-c2" c2Inputs
        (.error "boom") .ok 2 5 6).crew_jobs,
      j.status = "completed" ∧ j.error_message = none ∧
      j.result = some ("\x7b\x27status\x27: \x27error\x27, \x27result\x27: None, \x27message\x27: \x27Error during crew execution: boom\x27\x7d") := by
  decide

/-- A store holding a single pending job (for the C10 counterexample and
witness). -/
def c10Job : CrewJobRec :=
  { id := 1, job_id := "job-c10", user_id := 4, conversation_id := none,
    topic := "AI in healthcare", platform := none, additional_context := none,
    status := "pending", result := none, error_message := none,
    started_at := 0, completed_at := none }

def c10Db : Db :=
  { conversations := [], messages := [], crew_jobs := [c10Job] }

def c10Inputs : CrewJobCreate :=
  { topic := "AI in healthcare", additional_context := none, platform := none,
    conversation_id := none }

/-- C10: counterexample.  The capability invocation times out — concretely,
the crew execution raises Exception("Request timed out"), which is how an
expired timeout of the underlying client surfaces.  The claim requires the job
to transition to "failed" with a distinguishable timeout error kind; the code
instead records the job as "completed" and leaves `error_message` NULL.  The
orchestrator itself imposes no timeout bound on the invocation at all. -/
theorem C10_counterexample :
    ∃ j ∈ (run_crew_background_with_db c10Db "job-c10" c10Inputs
        (.error "Request timed out") .ok 2 5 6).crew_jobs,
      j.status = "completed" ∧ ¬ j.status = "failed" ∧
      j.error_message = none := by
  decide

/-- C10 (amended): no timeout bound exists in the orchestrator; any error
raised inside the capability invocation — a timeout included — is caught by
the wrapper and recorded as a "completed" job whose `result` embeds the error
text; `error_message` keeps its prior value and the job does not end up
"failed" on this path.  (A capability invocation that never returns simply
leaves the job in "running" forever: the terminal update is only ever issued
after the invocation returns.) -/
theorem C10_amended_capability_error_never_fails_job (db : Db) (jid : String)
    (inputs : CrewJobCreate) (m : String) (ap : AppendOutcome)
    (mid now now2 : Nat) (j : CrewJobRec)
    (hfind : db.crew_jobs.find? (fun k => k.job_id == jid) = some j) :
    ∃ j', (run_crew_background_with_db db jid inputs (.error m) ap mid now
        now2).crew_jobs.find? (fun k => k.job_id == jid) = some j' ∧
      j'.status = "completed" ∧ ¬ j'.status = "failed" ∧
      j'.error_message = j.error_message ∧
      j'.result = some (pyStrOfKickoff
        { status := "error", result := none,
          message := "Error during crew execution: " ++ m }) ∧
      j'.completed_at = some now := by
  refine ⟨_, run_background_final_job db jid inputs (.error m) ap mid now now2
    j hfind, rfl, ?_, rfl, rfl, rfl⟩
  exact (by decide : ¬ ("completed" : String) = "failed")

theorem C10_amended_witness :
    ∃ j', (run_crew_background_with_db c10Db "job-c10" c10Inputs
        (.error "Request timed out") .ok 2 5 6).crew_jobs.find?
          (fun k => k.job_id == "job-c10") = some j' ∧
      j'.status = "completed" ∧ ¬ j'.status = "failed" ∧
      j'.error_message = c10Job.error_message ∧
      j'.result = some (pyStrOfKickoff
        { status := "error", result := none,
          message := "Error during crew execution: " ++ "Request timed out" }) ∧
      j'.completed_at = some 5 :=
  C10_amended_capability_error_never_fails_job c10Db "job-c10" c10Inputs
    "Request timed out" .ok 2 5 6 c10Job (by decide)

/-- C5: the background refetch passes a `None` owner to `crud.get_crew_job`,
whose owner filter a non-nullable `user_id` column can never satisfy.  Hence
for every store and every job id the refetched job is `none`, the conversation
context handed to the crew invocation is empty, and the assistant append never
runs: the message table after the whole background task equals the one before
it — even for a job created with a conversation id. -/
theorem C5_background_refetch_matches_nothing (db : Db) (jid : String)
    (inputs : CrewJobCreate) (o : CrewOutcome) (ap : AppendOutcome)
    (mid now now2 : Nat) :
    backgroundJob (backgroundSetRunning db jid) jid = none ∧
    backgroundContext (backgroundSetRunning db jid) jid = [] ∧
    (run_crew_background_with_db db jid inputs o ap mid now now2).messages =
      db.messages := by
  refine ⟨backgroundJob_none .., backgroundContext_empty .., ?_⟩
  rw [run_background_eq, update_crew_job_messages, backgroundSetRunning_messages]

/-- C4: for a job associated with a conversation, once the background task has
recorded the job as "completed" with its result, the outcome of the
best-effort assistant-message append cannot change the recorded status, result
or completion timestamp: the store produced by the background task is the same
for every append outcome, and the job reads "completed" with the original
result payload.  (In this code the append is in fact never attempted — the
refetch with a `None` owner returns no job, see C5 — so an append failure is
unreachable and the completion record trivially stands.) -/
theorem C4_append_failure_preserves_completion (db : Db) (jid : String)
    (t : String) (inputs : CrewJobCreate) (ap : AppendOutcome)
    (mid now now2 : Nat) (j : CrewJobRec)
    (hfind : db.crew_jobs.find? (fun k => k.job_id == jid) = some j)
    (_hconv : j.conversation_id.isSome = true) :
    run_crew_background_with_db db jid inputs (.success t) ap mid now now2 =
      run_crew_background_with_db db jid inputs (.success t)
        AppendOutcome.ok mid now now2 ∧
    ∃ j', (run_crew_background_with_db db jid inputs (.success t) ap mid now
        now2).crew_jobs.find? (fun k => k.job_id == jid) = some j' ∧
      j'.status = "completed" ∧
      j'.result = some (pyStrOfKickoff
        { status := "success", result := some t,
          message := "Crew execution completed successfully" }) ∧
      j'.completed_at = some now := by
  refine ⟨by rw [run_background_eq, run_background_eq], ?_⟩
  exact ⟨_, run_background_final_job db jid inputs (.success t) ap mid now now2
    j hfind, rfl, rfl, rfl⟩

/-- A store with a conversation-linked pending job, for the C4 witness. -/
def c4Conv : ConversationRec :=
  { id := 3, user_id := 7, title := "demo", updated_at := none }

def c4Job : CrewJobRec :=
  { id := 1, job_id := "job-c4", user_id := 7, conversation_id := some 3,
    topic := "AI in healthcare", platform := none, additional_context := none,
    status := "pending", result := none, error_message := none,
    started_at := 0, completed_at := none }

def c4Db : Db :=
  { conversations := [c4Conv], messages := [], crew_jobs := [c4Job] }

def c4Inputs : CrewJobCreate :=
  { topic := "AI in healthcare", additional_context := none, platform := none,
    conversation_id := some 3 }

theorem C4_witness :
    run_crew_background_with_db c4Db "job-c4" c4Inputs (.success "An article")
        (.raise "db down") 2 5 6 =
      run_crew_background_with_db c4Db "job-c4" c4Inputs (.success "An article")
        AppendOutcome.ok 2 5 6 ∧
    ∃ j', (run_crew_background_with_db c4Db "job-c4" c4Inputs
        (.success "An article") (.raise "db down") 2 5
        6).crew_jobs.find? (fun k => k.job_id == "job-c4") = some j' ∧
      j'.status = "completed" ∧
      j'.result = some (pyStrOfKickoff
        { status := "success", result := some "An article",
          message := "Crew execution completed successfully" }) ∧
      j'.completed_at = some 5 :=
  C4_append_failure_preserves_completion c4Db "job-c4" "An article" c4Inputs
    (.raise "db down") 2 5 6 c4Job (by decide) (by decide)

/-- C7: context building fails closed.  If no stored conversation carries the
requested id and owner — the conversation does not exist, or belongs to a
different owner — then `get_conversation` is `none` and
`get_conversation_messages` returns the empty list.  Both are pure reads: they
take the store and return a value, raising nothing and writing nothing. -/
theorem C7_context_fails_closed (db : Db) (cid uid : Nat)
    (h : ∀ c ∈ db.conversations, ¬(c.id = cid ∧ c.user_id = uid)) :
    get_conversation db cid uid = none ∧
    get_conversation_messages db cid uid = [] := by
  have hg : get_conversation db cid uid = none := by
    unfold get_conversation
    rw [List.find?_eq_none]
    intro c hc hcc
    simp only [Bool.and_eq_true, beq_iff_eq] at hcc
    exact h c hc hcc
  refine ⟨hg, ?_⟩
  unfold get_conversation_messages
  rw [hg]

/-- A store whose only conversation belongs to user 2, for the C7 witness:
user 3 asking for it gets the empty context, as does anyone asking for a
conversation id that does not exist. -/
def c7Conv : ConversationRec :=
  { id := 1, user_id := 2, title := "demo", updated_at := none }

def c7Msg : MessageRec :=
  { id := 1, conversation_id := 1, role := "user", content := "hello",
    created_at := 1 }

def c7Db : Db :=
  { conversations := [c7Conv], messages := [c7Msg], crew_jobs := [] }

theorem C7_witness :
    get_conversation c7Db 1 3 = none ∧
    get_conversation_messages c7Db 1 3 = [] :=
  C7_context_fails_closed c7Db 1 3 (by decide)

/-- C8: fetching a job owned by principal `a` as a different principal `b`
produces exactly the 404 "Job not found" error — the same outcome as fetching
a job id that matches no row at all.  The caller never receives the record and
no distinct 403 Forbidden path exists in the handler. -/
theorem C8_cross_principal_is_not_found (db : Db) (jid missingJid : String)
    (a b : Nat)
    (hown : ∀ j ∈ db.crew_jobs, j.job_id = jid → j.user_id = a)
    (hb : b ≠ a)
    (hmiss : ∀ j ∈ db.crew_jobs, j.job_id ≠ missingJid) :
    get_crew_job_endpoint db jid b =
      .error { status_code := 404, detail := "Job not found" } ∧
    get_crew_job_endpoint db jid b = get_crew_job_endpoint db missingJid b := by
  have h1 : get_crew_job db jid (some b) = none := by
    unfold get_crew_job
    rw [List.find?_eq_none]
    intro j hj hcc
    simp only [Bool.and_eq_true, beq_iff_eq] at hcc
    exact hb (hcc.2 ▸ hown j hj hcc.1)
  have h2 : get_crew_job db missingJid (some b) = none := by
    unfold get_crew_job
    rw [List.find?_eq_none]
    intro j hj hcc
    simp only [Bool.and_eq_true, beq_iff_eq] at hcc
    exact hmiss j hj hcc.1
  unfold get_crew_job_endpoint
  rw [h1, h2]
  exact ⟨rfl, rfl⟩

/-- A store whose only job belongs to user 1, for the C8 witness: user 2
fetching it gets the same 404 as fetching the absent id "missing". -/
def c8Job : CrewJobRec :=
  { id := 1, job_id := "job-c8", user_id := 1, conversation_id := none,
    topic := "AI in healthcare", platform := none, additional_context := none,
    status := "pending", result := none, error_message := none,
    started_at := 0, completed_at := none }

def c8Db : Db := { conversations := [], messages := [], crew_jobs := [c8Job] }

theorem C8_witness :
    get_crew_job_endpoint c8Db "job-c8" 2 =
      .error { status_code := 404, detail := "Job not found" } ∧
    get_crew_job_endpoint c8Db "job-c8" 2 =
      get_crew_job_endpoint c8Db "missing" 2 :=
  C8_cross_principal_is_not_found c8Db "job-c8" "missing" 1 2 (by decide)
    (by decide) (by decide)

/-- C9: a topic below the minimum length of 3 characters fails the pydantic
validation that FastAPI applies before the route handler runs: the caller
receives a synchronous validation error, the store is returned unchanged — in
particular no job record is created — and nothing is scheduled. -/
theorem C9_short_topic_rejected_synchronously (db : Db) (userId : Nat)
    (jd : CrewJobCreate) (fid : String) (rid mid now : Nat)
    (h : jd.topic.length < 3) :
    kickoff_crew_async db userId jd fid rid mid now =
      (db, .error { status_code := 422, detail := "validation error" }) := by
  have hv : crewJobCreateValid jd = false := by
    unfold crewJobCreateValid
    simp [Nat.not_le.mpr h]
  unfold kickoff_crew_async
  rw [hv]
  rfl

/-- An arbitrary nonempty store for the C9 witness. -/
def c9Job : CrewJobRec :=
  { id := 1, job_id := "job-old", user_id := 1, conversation_id := none,
    topic := "older topic", platform := none, additional_context := none,
    status := "completed", result := some "done", error_message := none,
    started_at := 0, completed_at := some 2 }

def c9Db : Db := { conversations := [], messages := [], crew_jobs := [c9Job] }

theorem C9_witness :
    kickoff_crew_async c9Db 1
        { topic := "ab", additional_context := none, platform := none,
          conversation_id := none } "job-new" 2 3 4 =
      (c9Db, .error { status_code := 422, detail := "validation error" }) :=
  C9_short_topic_rejected_synchronously c9Db 1
    { topic := "ab", additional_context := none, platform := none,
      conversation_id := none } "job-new" 2 3 4 (by decide)

theorem pyTail_map {α β : Type} (f : α → β) (n : Nat) (xs : List α) :
    pyTail n (xs.map f) = (pyTail n xs).map f := by
  unfold pyTail
  rw [List.length_map, List.map_drop]

theorem pyTail_pyTail_of_le {α : Type} (m n : Nat) (h : m ≤ n)
    (xs : List α) :
    pyTail m (pyTail n xs) = pyTail m xs := by
  unfold pyTail
  rw [List.length_drop, List.drop_drop]
  congr 1
  omega

theorem contextWindow_jobConversationContext (db : Db) (cid uid : Nat) :
    contextWindow (jobConversationContext db cid uid) =
      (pyTail 5 (get_conversation_messages db cid uid)).map
        (fun m => { role := m.role, content := m.content.take 200 }) := by
  unfold contextWindow jobConversationContext
  rw [pyTail_map, pyTail_pyTail_of_le 5 10 (by omega), List.map_map]
  rfl

theorem get_conversation_messages_sorted (db : Db) (cid uid : Nat) :
    List.Pairwise (fun a b => a.created_at ≤ b.created_at)
      (get_conversation_messages db cid uid) := by
  unfold get_conversation_messages
  cases get_conversation db cid uid with
  | none => simp
  | some c =>
      have h := @List.sorted_mergeSort MessageRec
        (fun a b => decide (a.created_at ≤ b.created_at))
        (fun a b c hab hbc => by
          simp only [decide_eq_true_eq] at hab hbc ⊢
          omega)
        (fun a b => by
          simp only [Bool.or_eq_true, decide_eq_true_eq]
          omega)
        (db.messages.filter (fun m => m.conversation_id == cid))
      exact h.imp (fun hab => by simpa using hab)

/-- C6: for a conversation holding more messages than the effective window
size of 5 (e.g. 12), the context that reaches the crew prompt is exactly the
last 5 of the chronologically (creation-time ascending) ordered conversation
messages, each reduced to its role and its content truncated to the fixed
200-character budget.  main.py keeps the last 10 messages of the ordered
fetch and `create_crew_with_context` keeps the last 5 of those and truncates;
the composition is the last 5 of the ordered messages. -/
theorem C6_context_is_last_five_truncated (db : Db) (cid uid : Nat)
    (h5 : 5 < (get_conversation_messages db cid uid).length) :
    contextWindow (jobConversationContext db cid uid) =
      (pyTail 5 (get_conversation_messages db cid uid)).map
        (fun m => { role := m.role, content := m.content.take 200 }) ∧
    (pyTail 5 (get_conversation_messages db cid uid)).length = 5 ∧
    List.Pairwise (fun a b => a.created_at ≤ b.created_at)
      (get_conversation_messages db cid uid) := by
  refine ⟨contextWindow_jobConversationContext db cid uid, ?_,
    get_conversation_messages_sorted db cid uid⟩
  unfold pyTail
  rw [List.length_drop]
  omega

/-- A conversation with 12 messages (stored out of order, to exercise the
ordered fetch) for the C6 witness. -/
def c6Msg (i : Nat) : MessageRec :=
  { id := i, conversation_id := 7,
    role := if i % 2 == 1 then "user" else "assistant",
    content := "message number " ++ toString i, created_at := i }

def c6Conv : ConversationRec :=
  { id := 7, user_id := 3, title := "demo", updated_at := none }

def c6Db : Db :=
  { conversations := [c6Conv],
    messages := [c6Msg 3, c6Msg 1, c6Msg 2, c6Msg 6, c6Msg 5, c6Msg 4,
      c6Msg 9, c6Msg 8, c6Msg 7, c6Msg 12, c6Msg 11, c6Msg 10],
    crew_jobs := [] }

theorem C6_witness :
    contextWindow (jobConversationContext c6Db 7 3) =
      (pyTail 5 (get_conversation_messages c6Db 7 3)).map
        (fun m => { role := m.role, content := m.content.take 200 }) ∧
    (pyTail 5 (get_conversation_messages c6Db 7 3)).length = 5 ∧
    List.Pairwise (fun a b => a.created_at ≤ b.created_at)
      (get_conversation_messages c6Db 7 3) :=
  C6_context_is_last_five_truncated c6Db 7 3 (by
    show 5 < ((c6Db.messages.filter
      (fun m => m.conversation_id == 7)).mergeSort
        (fun a b => decide (a.created_at ≤ b.created_at))).length
    rw [List.length_mergeSort]
    decide)

/-- Boolean test: the optional string holds a non-empty value. -/
def strNonEmptyB : Option String → Bool
  | some s => s.length != 0
  | none => false

/-- Boolean test: the status is terminal ("completed" or "failed"). -/
def terminalB (j : CrewJobRec) : Bool :=
  j.status == "completed" || j.status == "failed"

/-- The C3 record invariant, stated with executable Boolean tests as three
if-and-only-if statements in Boolean form: `completed_at` is set exactly when
the status is terminal, `result` is non-empty exactly when the status is
"completed", and `error_message` is non-empty exactly when the status is
"failed". -/
def JobInv (j : CrewJobRec) : Prop :=
  j.completed_at.isSome = terminalB j ∧
  strNonEmptyB j.result = (j.status == "completed") ∧
  strNonEmptyB j.error_message = (j.status == "failed")

/-- A job row as freshly created: status "pending" and no outcome fields. -/
def pristinePending (j : CrewJobRec) : Prop :=
  j.status = "pending" ∧ j.result = none ∧ j.error_message = none ∧
    j.completed_at = none

/-- A job row right after the "running" update of its background task. -/
def pristineRunning (j : CrewJobRec) : Prop :=
  j.status = "running" ∧ j.result = none ∧ j.error_message = none ∧
    j.completed_at = none

theorem jobInv_of_pristinePending {j : CrewJobRec}
    (h : pristinePending j) : JobInv j := by
  obtain ⟨hs, hr, he, hc⟩ := h
  unfold JobInv terminalB strNonEmptyB
  rw [hs, hr, he, hc]
  exact ⟨rfl, rfl, rfl⟩

theorem jobInv_of_pristineRunning {j : CrewJobRec}
    (h : pristineRunning j) : JobInv j := by
  obtain ⟨hs, hr, he, hc⟩ := h
  unfold JobInv terminalB strNonEmptyB
  rw [hs, hr, he, hc]
  exact ⟨rfl, rfl, rfl⟩

theorem pristineRunning_of_runningUpdate {j : CrewJobRec}
    (h : pristinePending j) :
    pristineRunning (applyUpdate j { status := some "running" }) := by
  obtain ⟨hs, hr, he, hc⟩ := h
  exact ⟨rfl, hr, he, hc⟩

theorem pyStrOfKickoff_length_pos (r : KickoffResult) :
    0 < (pyStrOfKickoff r).length := by
  unfold pyStrOfKickoff
  have h12 : ("\x7b\x27status\x27: \x27" : String).length = 12 := rfl
  rw [String.length_append, String.length_append, String.length_append,
    String.length_append, String.length_append, String.length_append, h12]
  omega

theorem strNonEmptyB_pyStr (r : KickoffResult) :
    strNonEmptyB (some (pyStrOfKickoff r)) = true := by
  unfold strNonEmptyB
  have h := pyStrOfKickoff_length_pos r
  simp only [bne_iff_ne, ne_eq]
  omega

theorem jobInv_completedUpdate {j : CrewJobRec} (h : pristineRunning j)
    (r : KickoffResult) (now : Nat) :
    JobInv (applyUpdate j
      { status := some "completed", result := some (pyStrOfKickoff r),
        completed_at := some now }) := by
  obtain ⟨hs, hr, he, hc⟩ := h
  unfold JobInv terminalB
  refine ⟨rfl, ?_, ?_⟩
  · exact strNonEmptyB_pyStr r
  · show strNonEmptyB j.error_message = _
    rw [he]
    rfl

theorem add_message_endpoint_crew_jobs (db : Db) (userId conversationId : Nat)
    (role content : String) (newId now : Nat) :
    (add_message_endpoint db userId conversationId role content newId
      now).1.crew_jobs = db.crew_jobs := by
  unfold add_message_endpoint
  cases get_conversation db conversationId userId <;> rfl

theorem kickoff_crew_async_crew_jobs_valid (db : Db) (userId : Nat)
    (jd : CrewJobCreate) (fid : String) (rid mid now : Nat)
    (hv : crewJobCreateValid jd = true) :
    (kickoff_crew_async db userId jd fid rid mid now).1.crew_jobs =
      db.crew_jobs ++ [(create_crew_job db userId jd fid rid now).2] := by
  unfold kickoff_crew_async
  rw [if_pos hv]
  cases hc : jd.conversation_id <;> rfl

theorem kickoff_crew_async_invalid (db : Db) (userId : Nat)
    (jd : CrewJobCreate) (fid : String) (rid mid now : Nat)
    (hv : crewJobCreateValid jd = false) :
    (kickoff_crew_async db userId jd fid rid mid now).1 = db := by
  unfold kickoff_crew_async
  rw [hv]
  rfl

theorem nodup_updateMap {jobs : List CrewJobRec} (jid : String)
    (u : CrewJobUpdate)
    (h : (jobs.map (fun j => j.job_id)).Nodup) :
    ((jobs.map (fun k => if k.job_id = jid then applyUpdate k u
        else k)).map (fun j => j.job_id)).Nodup := by
  rw [List.map_map]
  have he : (fun j : CrewJobRec => j.job_id) ∘
      (fun k => if k.job_id = jid then applyUpdate k u else k) =
      fun j : CrewJobRec => j.job_id := by
    funext k
    by_cases hk : k.job_id = jid <;>
      simp [Function.comp, hk, applyUpdate_job_id]
  rw [he]
  exact h

/-- The orchestration state: the store together with the dispatch bookkeeping
of the serving process — jobs whose background task has been scheduled by
`kickoff_crew_async` but has not yet begun, and jobs whose background task has
performed its "running" update but has not yet finished. -/
structure Sys where
  db : Db
  pendingDispatch : List String
  started : List String
  deriving Repr, DecidableEq

/-- The states reachable through the operations of the subsystem: the empty
store; conversation creation; the message endpoint; job submission
(validation, job creation, optional user message, scheduling); the first
persisted step of a scheduled background task (the "running" update); and the
remainder of a started background task (context assembly, crew invocation,
completion record, append branch).  Splitting the background task at its
persisted midpoint makes every store a poller could observe through the read
endpoints a reachable state.  FastAPI BackgroundTasks runs each scheduled task
exactly once, and each submission allocates a fresh UUID job id; the `kickoff`
constructor carries exactly these freshness facts. -/
inductive Reachable : Sys → Prop where
  | init :
      Reachable { db := { conversations := [], messages := [], crew_jobs := [] },
                  pendingDispatch := [], started := [] }
  | createConversation (s : Sys) (userId : Nat) (title : String)
      (newId : Nat) :
      Reachable s →
      Reachable { s with
        db := (create_conversation s.db userId title newId).1 }
  | addMessage (s : Sys) (userId conversationId : Nat)
      (role content : String) (newId now : Nat) :
      Reachable s →
      Reachable { s with
        db := (add_message_endpoint s.db userId conversationId role content
          newId now).1 }
  | kickoff (s : Sys) (userId : Nat) (jd : CrewJobCreate) (fid : String)
      (rid mid now : Nat) :
      Reachable s →
      (∀ j ∈ s.db.crew_jobs, j.job_id ≠ fid) →
      fid ∉ s.pendingDispatch → fid ∉ s.started →
      Reachable { db := (kickoff_crew_async s.db userId jd fid rid mid now).1,
                  pendingDispatch :=
                    (if crewJobCreateValid jd then [fid] else []) ++
                      s.pendingDispatch,
                  started := s.started }
  | backgroundBegin (s : Sys) (jid : String) :
      Reachable s → jid ∈ s.pendingDispatch →
      Reachable { db := backgroundSetRunning s.db jid,
                  pendingDispatch := s.pendingDispatch.erase jid,
                  started := jid :: s.started }
  | backgroundFinish (s : Sys) (jid : String) (inputs : CrewJobCreate)
      (o : CrewOutcome) (ap : AppendOutcome) (mid now now2 : Nat) :
      Reachable s → jid ∈ s.started →
      Reachable { db := backgroundRest s.db jid inputs o ap mid now now2,
                  pendingDispatch := s.pendingDispatch,
                  started := s.started.erase jid }

/-- The induction invariant: job ids are pairwise distinct (each submission
allocates a fresh one), the dispatch bookkeeping never mentions an id twice,
every stored job satisfies the C3 record invariant, scheduled-but-not-begun
jobs are pristine pending rows, and begun-but-not-finished jobs are pristine
running rows. -/
def SysInv (s : Sys) : Prop :=
  (s.db.crew_jobs.map (fun j => j.job_id)).Nodup ∧
  (s.pendingDispatch ++ s.started).Nodup ∧
  (∀ j ∈ s.db.crew_jobs, JobInv j) ∧
  (∀ j ∈ s.db.crew_jobs, j.job_id ∈ s.pendingDispatch → pristinePending j) ∧
  (∀ j ∈ s.db.crew_jobs, j.job_id ∈ s.started → pristineRunning j)

theorem sysInv_of_crew_jobs_eq (s : Sys) (db' : Db)
    (h : db'.crew_jobs = s.db.crew_jobs) (hs : SysInv s) :
    SysInv { s with db := db' } := by
  obtain ⟨h1, h2, h3, h4, h5⟩ := hs
  refine ⟨?_, h2, ?_, ?_, ?_⟩
  · show (db'.crew_jobs.map (fun j => j.job_id)).Nodup
    rw [h]
    exact h1
  · intro j hj
    exact h3 j (h ▸ hj)
  · intro j hj
    exact h4 j (h ▸ hj)
  · intro j hj
    exact h5 j (h ▸ hj)

theorem sysInv_kickoff (s : Sys) (userId : Nat) (jd : CrewJobCreate)
    (fid : String) (rid mid now : Nat)
    (hfresh : ∀ j ∈ s.db.crew_jobs, j.job_id ≠ fid)
    (hpd : fid ∉ s.pendingDispatch) (hst : fid ∉ s.started)
    (h : SysInv s) :
    SysInv { db := (kickoff_crew_async s.db userId jd fid rid mid now).1,
             pendingDispatch :=
               (if crewJobCreateValid jd then [fid] else []) ++
                 s.pendingDispatch,
             started := s.started } := by
  obtain ⟨h1, h2, h3, h4, h5⟩ := h
  by_cases hv : crewJobCreateValid jd = true
  · have hjobs :=
      kickoff_crew_async_crew_jobs_valid s.db userId jd fid rid mid now hv
    have hnid : (create_crew_job s.db userId jd fid rid now).2.job_id = fid :=
      rfl
    have hnp : pristinePending (create_crew_job s.db userId jd fid rid now).2 :=
      ⟨rfl, rfl, rfl, rfl⟩
    have hfid_not : fid ∉ s.db.crew_jobs.map (fun j => j.job_id) := by
      intro hmem
      obtain ⟨j, hj, hjid⟩ := List.mem_map.mp hmem
      exact hfresh j hj hjid
    have hif : (if crewJobCreateValid jd then [fid] else ([] : List String)) =
        [fid] := by
      rw [hv]
      rfl
    refine ⟨?_, ?_, ?_, ?_, ?_⟩
    · show ((kickoff_crew_async s.db userId jd fid rid mid
        now).1.crew_jobs.map (fun j => j.job_id)).Nodup
      rw [hjobs, List.map_append, List.nodup_append]
      refine ⟨h1, by simp, ?_⟩
      intro a ha hb
      simp only [List.map_cons, List.map_nil, List.mem_singleton, hnid] at hb
      exact hfid_not (hb ▸ ha)
    · show ((if crewJobCreateValid jd then [fid] else []) ++
        s.pendingDispatch ++ s.started).Nodup
      rw [hif]
      have : [fid] ++ s.pendingDispatch ++ s.started =
          fid :: (s.pendingDispatch ++ s.started) := by
        simp [List.append_assoc]
      rw [this, List.nodup_cons]
      refine ⟨?_, h2⟩
      intro hmem
      rcases List.mem_append.mp hmem with hc | hc
      · exact hpd hc
      · exact hst hc
    · show ∀ j ∈ (kickoff_crew_async s.db userId jd fid rid mid
        now).1.crew_jobs, JobInv j
      rw [hjobs]
      intro j hj
      rcases List.mem_append.mp hj with hc | hc
      · exact h3 j hc
      · rw [List.mem_singleton] at hc
        exact hc ▸ jobInv_of_pristinePending hnp
    · show ∀ j ∈ (kickoff_crew_async s.db userId jd fid rid mid
        now).1.crew_jobs, j.job_id ∈
          (if crewJobCreateValid jd then [fid] else []) ++
            s.pendingDispatch → pristinePending j
      rw [hjobs, hif]
      intro j hj hjid
      rcases List.mem_append.mp hj with hc | hc
      · rcases List.mem_append.mp hjid with hd | hd
        · rw [List.mem_singleton] at hd
          exact absurd hd (hfresh j hc)
        · exact h4 j hc hd
      · rw [List.mem_singleton] at hc
        exact hc ▸ hnp
    · show ∀ j ∈ (kickoff_crew_async s.db userId jd fid rid mid
        now).1.crew_jobs, j.job_id ∈ s.started → pristineRunning j
      rw [hjobs]
      intro j hj hjid
      rcases List.mem_append.mp hj with hc | hc
      · exact h5 j hc hjid
      · rw [List.mem_singleton] at hc
        rw [hc, hnid] at hjid
        exact absurd hjid hst
  · have hv' : crewJobCreateValid jd = false := Bool.eq_false_iff.mpr hv
    have hdb := kickoff_crew_async_invalid s.db userId jd fid rid mid now hv'
    have hif : (if crewJobCreateValid jd then [fid] else ([] : List String)) =
        [] := by
      rw [hv']
      rfl
    refine ⟨?_, ?_, ?_, ?_, ?_⟩
    · show ((kickoff_crew_async s.db userId jd fid rid mid
        now).1.crew_jobs.map (fun j => j.job_id)).Nodup
      rw [hdb]
      exact h1
    · show ((if crewJobCreateValid jd then [fid] else []) ++
        s.pendingDispatch ++ s.started).Nodup
      rw [hif, List.nil_append]
      exact h2
    · show ∀ j ∈ (kickoff_crew_async s.db userId jd fid rid mid
        now).1.crew_jobs, JobInv j
      rw [hdb]
      exact h3
    · show ∀ j ∈ (kickoff_crew_async s.db userId jd fid rid mid
        now).1.crew_jobs, j.job_id ∈
          (if crewJobCreateValid jd then [fid] else []) ++
            s.pendingDispatch → pristinePending j
      rw [hdb, hif, List.nil_append]
      exact h4
    · show ∀ j ∈ (kickoff_crew_async s.db userId jd fid rid mid
        now).1.crew_jobs, j.job_id ∈ s.started → pristineRunning j
      rw [hdb]
      exact h5

theorem sysInv_backgroundBegin (s : Sys) (jid : String)
    (hmem : jid ∈ s.pendingDispatch) (h : SysInv s) :
    SysInv { db := backgroundSetRunning s.db jid,
             pendingDispatch := s.pendingDispatch.erase jid,
             started := jid :: s.started } := by
  obtain ⟨h1, h2, h3, h4, h5⟩ := h
  obtain ⟨hpdnd, hstnd, hdisj⟩ := List.nodup_append.mp h2
  have hjobs : (backgroundSetRunning s.db jid).crew_jobs =
      s.db.crew_jobs.map (fun k => if k.job_id = jid
        then applyUpdate k { status := some "running" } else k) := by
    rw [backgroundSetRunning_crew_jobs,
      replaceFirstJob_eq_map_of_nodup _ _ _ h1]
  refine ⟨?_, ?_, ?_, ?_, ?_⟩
  · show ((backgroundSetRunning s.db jid).crew_jobs.map
      (fun j => j.job_id)).Nodup
    rw [hjobs]
    exact nodup_updateMap jid _ h1
  · show (s.pendingDispatch.erase jid ++ jid :: s.started).Nodup
    rw [List.nodup_append]
    refine ⟨hpdnd.erase jid, ?_, ?_⟩
    · rw [List.nodup_cons]
      exact ⟨fun hc => hdisj hmem hc, hstnd⟩
    · intro a ha hb
      have ha' := (hpdnd.mem_erase_iff).mp ha
      rcases List.mem_cons.mp hb with hc | hc
      · exact ha'.1 hc
      · exact hdisj ha'.2 hc
  · show ∀ j ∈ (backgroundSetRunning s.db jid).crew_jobs, JobInv j
    rw [hjobs]
    intro j hj
    obtain ⟨k, hk, hkeq⟩ := List.mem_map.mp hj
    by_cases hkid : k.job_id = jid
    · rw [if_pos hkid] at hkeq
      exact hkeq ▸ jobInv_of_pristineRunning
        (pristineRunning_of_runningUpdate
          (h4 k hk (by rw [hkid]; exact hmem)))
    · rw [if_neg hkid] at hkeq
      exact hkeq ▸ h3 k hk
  · show ∀ j ∈ (backgroundSetRunning s.db jid).crew_jobs,
      j.job_id ∈ s.pendingDispatch.erase jid → pristinePending j
    rw [hjobs]
    intro j hj hjid
    obtain ⟨k, hk, hkeq⟩ := List.mem_map.mp hj
    by_cases hkid : k.job_id = jid
    · exfalso
      have hjj : j.job_id = jid := by
        rw [← hkeq, if_pos hkid, applyUpdate_job_id]
        exact hkid
      rw [hjj] at hjid
      exact ((hpdnd.mem_erase_iff).mp hjid).1 rfl
    · rw [if_neg hkid] at hkeq
      subst hkeq
      exact h4 k hk (List.mem_of_mem_erase hjid)
  · show ∀ j ∈ (backgroundSetRunning s.db jid).crew_jobs,
      j.job_id ∈ jid :: s.started → pristineRunning j
    rw [hjobs]
    intro j hj hjid
    obtain ⟨k, hk, hkeq⟩ := List.mem_map.mp hj
    by_cases hkid : k.job_id = jid
    · rw [if_pos hkid] at hkeq
      exact hkeq ▸ pristineRunning_of_runningUpdate
        (h4 k hk (by rw [hkid]; exact hmem))
    · rw [if_neg hkid] at hkeq
      subst hkeq
      rcases List.mem_cons.mp hjid with hc | hc
      · exact absurd hc hkid
      · exact h5 k hk hc

theorem sysInv_backgroundFinish (s : Sys) (jid : String)
    (inputs : CrewJobCreate) (o : CrewOutcome) (ap : AppendOutcome)
    (mid now now2 : Nat) (hmem : jid ∈ s.started) (h : SysInv s) :
    SysInv { db := backgroundRest s.db jid inputs o ap mid now now2,
             pendingDispatch := s.pendingDispatch,
             started := s.started.erase jid } := by
  obtain ⟨h1, h2, h3, h4, h5⟩ := h
  obtain ⟨hpdnd, hstnd, hdisj⟩ := List.nodup_append.mp h2
  have hjobs : (backgroundRest s.db jid inputs o ap mid now
      now2).crew_jobs =
      s.db.crew_jobs.map (fun k => if k.job_id = jid
        then applyUpdate k
          { status := some "completed",
            result := some (pyStrOfKickoff (kickoff_crew_with_context inputs
              (backgroundContext s.db jid) o)),
            completed_at := some now }
        else k) := by
    rw [backgroundRest_eq_completed, update_crew_job_fst_crew_jobs,
      replaceFirstJob_eq_map_of_nodup _ _ _ h1]
  refine ⟨?_, ?_, ?_, ?_, ?_⟩
  · show ((backgroundRest s.db jid inputs o ap mid now
      now2).crew_jobs.map (fun j => j.job_id)).Nodup
    rw [hjobs]
    exact nodup_updateMap jid _ h1
  · show (s.pendingDispatch ++ s.started.erase jid).Nodup
    rw [List.nodup_append]
    refine ⟨hpdnd, hstnd.erase jid, ?_⟩
    intro a ha hb
    exact hdisj ha (List.mem_of_mem_erase hb)
  · show ∀ j ∈ (backgroundRest s.db jid inputs o ap mid now
      now2).crew_jobs, JobInv j
    rw [hjobs]
    intro j hj
    obtain ⟨k, hk, hkeq⟩ := List.mem_map.mp hj
    by_cases hkid : k.job_id = jid
    · rw [if_pos hkid] at hkeq
      exact hkeq ▸ jobInv_completedUpdate
        (h5 k hk (by rw [hkid]; exact hmem)) _ _
    · rw [if_neg hkid] at hkeq
      exact hkeq ▸ h3 k hk
  · show ∀ j ∈ (backgroundRest s.db jid inputs o ap mid now
      now2).crew_jobs, j.job_id ∈ s.pendingDispatch → pristinePending j
    rw [hjobs]
    intro j hj hjid
    obtain ⟨k, hk, hkeq⟩ := List.mem_map.mp hj
    by_cases hkid : k.job_id = jid
    · exfalso
      have hjj : j.job_id = jid := by
        rw [← hkeq, if_pos hkid, applyUpdate_job_id]
        exact hkid
      rw [hjj] at hjid
      exact hdisj hjid hmem
    · rw [if_neg hkid] at hkeq
      subst hkeq
      exact h4 k hk hjid
  · show ∀ j ∈ (backgroundRest s.db jid inputs o ap mid now
      now2).crew_jobs, j.job_id ∈ s.started.erase jid → pristineRunning j
    rw [hjobs]
    intro j hj hjid
    obtain ⟨k, hk, hkeq⟩ := List.mem_map.mp hj
    by_cases hkid : k.job_id = jid
    · exfalso
      have hjj : j.job_id = jid := by
        rw [← hkeq, if_pos hkid, applyUpdate_job_id]
        exact hkid
      rw [hjj] at hjid
      exact ((hstnd.mem_erase_iff).mp hjid).1 rfl
    · rw [if_neg hkid] at hkeq
      subst hkeq
      exact h5 k hk (List.mem_of_mem_erase hjid)

theorem reachable_sysInv {s : Sys} (h : Reachable s) : SysInv s := by
  induction h with
  | init =>
      refine ⟨by simp, by simp, ?_, ?_, ?_⟩ <;>
        · intro j hj
          exact absurd hj (List.not_mem_nil j)
  | createConversation s userId title newId _ ih =>
      exact sysInv_of_crew_jobs_eq s _
        (create_conversation_crew_jobs s.db userId title newId) ih
  | addMessage s userId conversationId role content newId now _ ih =>
      exact sysInv_of_crew_jobs_eq s _
        (add_message_endpoint_crew_jobs s.db userId conversationId role
          content newId now) ih
  | kickoff s userId jd fid rid mid now _ hfresh hpd hst ih =>
      exact sysInv_kickoff s userId jd fid rid mid now hfresh hpd hst ih
  | backgroundBegin s jid _ hmem ih =>
      exact sysInv_backgroundBegin s jid hmem ih
  | backgroundFinish s jid inputs o ap mid now now2 _ hmem ih =>
      exact sysInv_backgroundFinish s jid inputs o ap mid now now2 hmem ih

/-- C3: every job record in every state reachable through the operations of
the subsystem satisfies the record invariant: `completed_at` is set if and
only if the status is "completed" or "failed", `result` is non-empty if and
only if the status is "completed", and `error_message` is non-empty if and
only if the status is "failed" (the three Boolean equations of `JobInv`). -/
theorem C3_job_record_invariants (s : Sys) (hs : Reachable s) :
    ∀ j ∈ s.db.crew_jobs, JobInv j :=
  (reachable_sysInv hs).2.2.1

/-- A concrete run for the C3 witness: submit a job, begin and finish its
background task. -/
def demoJd : CrewJobCreate :=
  { topic := "AI in healthcare", additional_context := none,
    platform := none, conversation_id := none }

def demoSys0 : Sys :=
  { db := { conversations := [], messages := [], crew_jobs := [] },
    pendingDispatch := [], started := [] }

def demoSys1 : Sys :=
  { db := (kickoff_crew_async demoSys0.db 1 demoJd "job-1" 1 1 0).1,
    pendingDispatch :=
      (if crewJobCreateValid demoJd then ["job-1"] else []) ++
        demoSys0.pendingDispatch,
    started := demoSys0.started }

def demoSys2 : Sys :=
  { db := backgroundSetRunning demoSys1.db "job-1",
    pendingDispatch := demoSys1.pendingDispatch.erase "job-1",
    started := "job-1" :: demoSys1.started }

def demoSys3 : Sys :=
  { db := backgroundRest demoSys2.db "job-1" demoJd (.success "An article")
      .ok 2 5 6,
    pendingDispatch := demoSys2.pendingDispatch,
    started := demoSys2.started.erase "job-1" }

theorem demoSys3_reachable : Reachable demoSys3 :=
  Reachable.backgroundFinish demoSys2 "job-1" demoJd (.success "An article")
    .ok 2 5 6
    (Reachable.backgroundBegin demoSys1 "job-1"
      (Reachable.kickoff demoSys0 1 demoJd "job-1" 1 1 0 Reachable.init
        (by decide) (by decide) (by decide))
      (by decide))
    (by decide)

def demoFinalJob : CrewJobRec :=
  { id := 1, job_id := "job-1", user_id := 1, conversation_id := none,
    topic := "AI in healthcare", platform := none, additional_context := none,
    status := "completed",
    result := some (pyStrOfKickoff
      { status := "success", result := some "An article",
        message := "Crew execution completed successfully" }),
    error_message := none, started_at := 0, completed_at := some 5 }

theorem C3_witness : JobInv demoFinalJob :=
  C3_job_record_invariants demoSys3 demoSys3_reachable demoFinalJob
    (by decide)
